import Mathlib

/-! # plat-rush: the gorush gRPC client wrapper and the dispatch core of its specification

Part I embeds `src/client/client.go` (`Config`, `Client`, `New`, `Close`, `Send`,
`HealthCheck`).  The gRPC runtime and the generated stubs are outside the file; they are
threaded through the embedding as explicit state: every call into them is recorded in a
trace, and their behaviour is an arbitrary state transformer.

Part II models the Request Normalizer and the Outcome Aggregator of the specification,
for which the repository holds no code.
-/

namespace PlatRush

/-! ## Part I. Values exchanged with the gRPC runtime -/

/-- Go `error` values met by the wrapper: the two shapes built with `fmt.Errorf`
in `client.go`, and errors handed back by the RPC runtime. -/
inductive GoError where
  | errorf (msg : String)
  | wrapf (pre : String) (inner : GoError)
  | remote (msg : String)
  deriving DecidableEq, Repr

/-- The method `Error()` of an error value: `%w` prints the wrapped error's text. -/
def GoError.Error : GoError → String
  | .errorf msg => msg
  | .wrapf pre inner => pre ++ inner.Error
  | .remote msg => msg

/-- Transport credentials; `insecure.NewCredentials()` is the plaintext one. -/
inductive TransportCredentials where
  | insecureCreds
  | otherCreds (id : Nat)
  deriving DecidableEq, Repr

/-- A `grpc.DialOption`: either `grpc.WithTransportCredentials c` or any other option. -/
inductive DialOption where
  | WithTransportCredentials (c : TransportCredentials)
  | otherOption (id : Nat)
  deriving DecidableEq, Repr

/-- A `grpc.CallOption`, never inspected by the wrapper. -/
structure CallOption where
  id : Nat
  deriving DecidableEq, Repr

/-- A `context.Context`, never inspected by the wrapper. -/
structure Context where
  id : Nat
  deriving DecidableEq, Repr

/-- The target of a non-nil `*grpc.ClientConn`. -/
structure ClientConn where
  id : Nat
  deriving DecidableEq, Repr

/-- The target of a non-nil `*proto.NotificationRequest`, never inspected by the wrapper. -/
structure NotificationRequest where
  id : Nat
  deriving DecidableEq, Repr

/-- The target of a non-nil `*proto.NotificationReply`, never inspected by the wrapper. -/
structure NotificationReply where
  id : Nat
  deriving DecidableEq, Repr

/-- Modelled from the spec: the enum `proto.HealthCheckResponse_ServingStatus` is declared
in the generated package `rpc/proto`, which is not among the sources.  The spec names its
three values UNKNOWN, SERVING, NOT_SERVING.  As every Go enum it is a named integer type
(int32 in generated protobuf code) with typed constants, so it also holds integers that
carry no name. -/
structure HealthCheckResponse_ServingStatus where
  val : Int
  deriving DecidableEq, Repr

/-- Modelled from the spec: the constant `proto.HealthCheckResponse_UNKNOWN`. -/
def HealthCheckResponse_UNKNOWN : HealthCheckResponse_ServingStatus := ⟨0⟩

/-- Modelled from the spec: the constant `proto.HealthCheckResponse_SERVING`. -/
def HealthCheckResponse_SERVING : HealthCheckResponse_ServingStatus := ⟨1⟩

/-- Modelled from the spec: the constant `proto.HealthCheckResponse_NOT_SERVING`. -/
def HealthCheckResponse_NOT_SERVING : HealthCheckResponse_ServingStatus := ⟨2⟩

/-- The literal `proto.HealthCheckRequest{Service: service}`. -/
structure HealthCheckRequest where
  Service : String
  deriving DecidableEq, Repr

/-- The target of a non-nil `*proto.HealthCheckResponse`. -/
structure HealthCheckResponse where
  Status : HealthCheckResponse_ServingStatus
  deriving DecidableEq, Repr

/-- Modelled from the spec: the generated getter `(*HealthCheckResponse).GetStatus`, absent
from the sources: the status field of a non-nil response, UNKNOWN (the zero value) on a nil
receiver. -/
def HealthCheckResponse.GetStatus : Option HealthCheckResponse → HealthCheckResponse_ServingStatus
  | some resp => resp.Status
  | none => HealthCheckResponse_UNKNOWN

/-- The named values of the health surface. -/
def isNamedStatus (s : HealthCheckResponse_ServingStatus) : Prop :=
  s = HealthCheckResponse_UNKNOWN ∨ s = HealthCheckResponse_SERVING ∨
    s = HealthCheckResponse_NOT_SERVING

instance (s : HealthCheckResponse_ServingStatus) : Decidable (isNamedStatus s) := by
  unfold isNamedStatus; infer_instance

/-! ## The world outside the wrapper -/

/-- One call that leaves `client.go`. -/
inductive Event where
  | NewClient (target : String) (opts : List DialOption)
  | GorushSend (ctx : Context) (req : Option NotificationRequest) (opts : List CallOption)
  | HealthCheck (ctx : Context) (req : Option HealthCheckRequest) (opts : List CallOption)
  | ConnClose (conn : ClientConn)
  deriving DecidableEq, Repr

/-- The state of the outside world `ext`, of an arbitrary type `σ`, and the calls made so
far, oldest first. -/
structure World (σ : Type) where
  ext : σ
  trace : List Event

/-- A value of the interface `proto.GorushClient`: any implementation of `Send`. -/
structure GorushClient (σ : Type) where
  Send : Context → Option NotificationRequest → List CallOption → σ →
    (Option NotificationReply × Option GoError) × σ

/-- A value of the interface `proto.HealthClient`: any implementation of `Check`. -/
structure HealthClient (σ : Type) where
  Check : Context → Option HealthCheckRequest → List CallOption → σ →
    (Option HealthCheckResponse × Option GoError) × σ

/-- The functions `client.go` imports: `grpc.NewClient`, `(*grpc.ClientConn).Close`, and the
generated constructors `proto.NewGorushClient` and `proto.NewHealthClient`. -/
structure Runtime (σ : Type) where
  NewClient : String → List DialOption → σ → (Option ClientConn × Option GoError) × σ
  Close : ClientConn → σ → Option GoError × σ
  NewGorushClient : Option ClientConn → GorushClient σ
  NewHealthClient : Option ClientConn → HealthClient σ

/-- What a Go call does: it returns, or it panics. -/
inductive Outcome (α : Type) where
  | returned (a : α)
  | panicked
  deriving DecidableEq, Repr

/-! ## The embedding of `client.go` -/

/-- The struct `Config`. -/
structure Config where
  Address : String
  Insecure : Bool
  DialOptions : List DialOption
  deriving DecidableEq, Repr

/-- The struct `Client`.  `conn` is a pointer and `Gorush`, `Health` are interface values:
each of the three may be nil. -/
structure Client (σ : Type) where
  conn : Option ClientConn
  Gorush : Option (GorushClient σ)
  Health : Option (HealthClient σ)

/-- The slice `dialOpts` that `New` builds (lines 35 to 39). -/
def dialOpts (cfg : Config) : List DialOption :=
  let dialOpts : List DialOption := []
  let dialOpts :=
    if cfg.Insecure then
      dialOpts ++ [DialOption.WithTransportCredentials TransportCredentials.insecureCreds]
    else dialOpts
  dialOpts ++ cfg.DialOptions

/-- The function `New`: the pair `(*Client, error)` it returns and the world it leaves. -/
def New {σ : Type} (rt : Runtime σ) (cfg : Config) (w : World σ) :
    (Option (Client σ) × Option GoError) × World σ :=
  if cfg.Address = "" then
    ((none, some (GoError.errorf "address is required")), w)
  else
    let opts := dialOpts cfg
    let r := rt.NewClient cfg.Address opts w.ext
    let w1 : World σ := ⟨r.2, w.trace ++ [Event.NewClient cfg.Address opts]⟩
    match r.1.2 with
    | some err => ((none, some (GoError.wrapf "dial gorush: " err)), w1)
    | none =>
      ((some ⟨r.1.1, some (rt.NewGorushClient r.1.1), some (rt.NewHealthClient r.1.1)⟩, none), w1)

/-- The method `Close`. -/
def Close {σ : Type} (rt : Runtime σ) (c : Option (Client σ)) (w : World σ) :
    Option GoError × World σ :=
  match c with
  | none => (none, w)
  | some cl =>
    match cl.conn with
    | none => (none, w)
    | some conn =>
      let r := rt.Close conn w.ext
      (r.1, ⟨r.2, w.trace ++ [Event.ConnClose conn]⟩)

/-- The method `Send`.  A method call on a nil interface value panics. -/
def Send {σ : Type} (c : Option (Client σ)) (ctx : Context) (req : Option NotificationRequest)
    (opts : List CallOption) (w : World σ) :
    Outcome (Option NotificationReply × Option GoError) × World σ :=
  match c with
  | none => (.returned (none, some (GoError.errorf "client is nil")), w)
  | some cl =>
    match cl.Gorush with
    | none => (.panicked, w)
    | some stub =>
      let r := stub.Send ctx req opts w.ext
      (.returned r.1, ⟨r.2, w.trace ++ [Event.GorushSend ctx req opts]⟩)

/-- The method `HealthCheck`.  A method call on a nil interface value panics. -/
def HealthCheck {σ : Type} (c : Option (Client σ)) (ctx : Context) (service : String)
    (opts : List CallOption) (w : World σ) :
    Outcome (HealthCheckResponse_ServingStatus × Option GoError) × World σ :=
  match c with
  | none => (.returned (HealthCheckResponse_UNKNOWN, some (GoError.errorf "client is nil")), w)
  | some cl =>
    match cl.Health with
    | none => (.panicked, w)
    | some stub =>
      let r := stub.Check ctx (some ⟨service⟩) opts w.ext
      let w1 : World σ := ⟨r.2, w.trace ++ [Event.HealthCheck ctx (some ⟨service⟩) opts]⟩
      match r.1.2 with
      | some err => (.returned (HealthCheckResponse_UNKNOWN, some err), w1)
      | none => (.returned (HealthCheckResponse.GetStatus r.1.1, none), w1)

/-! ## Part II. The dispatch core of the specification

The repository holds no normalizer, scheduler or aggregator: the definitions below follow
sections 3, 4.1 and 4.3 of the specification. -/

/-- Modelled from the spec: the ValidationError taxonomy of section 7, absent from the
sources. -/
inductive ValidationError where
  | UnsupportedPlatform
  | EmptyRecipients
  deriving DecidableEq, Repr

/-- Modelled from the spec: the payload of a PushRequest (title, body, key/value data),
absent from the sources. -/
structure Payload where
  title : String
  body : String
  data : List (String × String)
  deriving DecidableEq, Repr

/-- Modelled from the spec: the PushRequest of section 3, absent from the sources: platform
tag, recipient tokens, payload, optional per-platform overrides. -/
structure PushRequest where
  platform : String
  recipients : List String
  payload : Payload
  overrides : Option (List (String × String))
  deriving DecidableEq, Repr

/-- Modelled from the spec: the DeliveryTask of section 3, absent from the sources: one
(platform, recipient-batch) pair carrying the payload of its request. -/
structure DeliveryTask where
  platform : String
  recipients : List String
  payload : Payload
  deriving DecidableEq, Repr

/-- Modelled from the spec: the part of the configuration surface of section 6 the
Normalizer reads, absent from the sources: the supported platform tags and the per-platform
cap maxBatchSize. -/
structure NormalizerConfig where
  supportedPlatforms : List String
  maxBatchSize : String → Nat

/-- Modelled from the spec: the invariant of a PushRequest (section 3): the platform tag is
supported and the recipient list is non-empty. -/
def PushRequest.valid (cfg : NormalizerConfig) (req : PushRequest) : Prop :=
  req.platform ∈ cfg.supportedPlatforms ∧ req.recipients ≠ []

instance (cfg : NormalizerConfig) (req : PushRequest) : Decidable (req.valid cfg) := by
  unfold PushRequest.valid; infer_instance

/-- Modelled from the spec: the batching step of the Normalizer (section 4.1), absent from
the sources: cut batches of B recipients off the front of the list, in order, until the list
is empty.  The first argument bounds the number of batches cut. -/
def splitFuel {α : Type} (B : Nat) : Nat → List α → List (List α)
  | 0, _ => []
  | _, [] => []
  | fuel + 1, x :: xs => (x :: xs).take B :: splitFuel B fuel ((x :: xs).drop B)

/-- Modelled from the spec: the batches of a recipient list, absent from the sources; a
list of R recipients needs at most R batches. -/
def splitBatches {α : Type} (B : Nat) (xs : List α) : List (List α) :=
  splitFuel B xs.length xs

/-- Modelled from the spec: the contract normalize of section 4.1, absent from the sources:
check the platform tag, check the recipient list, then make one DeliveryTask per batch, each
carrying the same payload. -/
def normalize (cfg : NormalizerConfig) (req : PushRequest) :
    Except ValidationError (List DeliveryTask) :=
  if req.platform ∈ cfg.supportedPlatforms then
    if req.recipients = [] then .error .EmptyRecipients
    else
      .ok ((splitBatches (cfg.maxBatchSize req.platform) req.recipients).map
        (fun batch => ⟨req.platform, batch, req.payload⟩))
  else .error .UnsupportedPlatform

/-- Modelled from the spec: the status of a TaskOutcome (section 3), absent from the
sources.  A cancelled task is recorded as Failed (section 4.2). -/
inductive TaskStatus where
  | Success
  | Failed
  | RetriedThenFailed
  deriving DecidableEq, Repr

/-- Modelled from the spec: the TaskOutcome of section 3, absent from the sources.  The task
reference is the position of the task in creation order. -/
structure TaskOutcome where
  task : Nat
  status : TaskStatus
  errorDetail : Option String
  attempts : Nat
  deriving DecidableEq, Repr

/-- Modelled from the spec: the DispatchReply of section 3, absent from the sources. -/
structure DispatchReply where
  successCount : Nat
  failureCount : Nat
  outcomes : List TaskOutcome
  deriving DecidableEq, Repr

/-- Modelled from the spec: the error of the Aggregator (section 4.3), absent from the
sources. -/
inductive AggregateError where
  | IncompleteDispatch
  deriving DecidableEq, Repr

/-- Modelled from the spec: the reordering step of the Aggregator (section 4.3), absent
from the sources: walk the tasks in creation order, starting at position i, and pair each
with its outcome; a task without outcome makes the step fail. -/
def reorder (outcomes : List TaskOutcome) : Nat → List DeliveryTask →
    Option (List (DeliveryTask × TaskOutcome))
  | _, [] => some []
  | i, t :: ts =>
    match outcomes.find? (fun o => o.task == i), reorder outcomes (i + 1) ts with
    | some o, some rest => some ((t, o) :: rest)
    | _, _ => none

/-- Modelled from the spec: the statuses counted as success. -/
def TaskStatus.isSuccess : TaskStatus → Bool
  | .Success => true
  | _ => false

/-- Modelled from the spec: the statuses counted as failure. -/
def TaskStatus.isFailure : TaskStatus → Bool
  | .Failed => true
  | .RetriedThenFailed => true
  | .Success => false

/-- Modelled from the spec: the totals of the Aggregator (section 4.3), absent from the
sources: the sum of the recipients of the tasks whose outcome status satisfies p. -/
def recipientTotal (p : TaskStatus → Bool) : List (DeliveryTask × TaskOutcome) → Nat
  | [] => 0
  | (t, o) :: rest =>
    (if p o.status then t.recipients.length else 0) + recipientTotal p rest

/-- Modelled from the spec: the contract aggregate of section 4.3, absent from the sources:
reorder the outcomes to task creation order, sum recipients per status, build the reply;
IncompleteDispatch when a task has no outcome. -/
def aggregate (outcomes : List TaskOutcome) (tasks : List DeliveryTask) :
    Except AggregateError DispatchReply :=
  match reorder outcomes 0 tasks with
  | none => .error .IncompleteDispatch
  | some paired =>
    .ok ⟨recipientTotal TaskStatus.isSuccess paired, recipientTotal TaskStatus.isFailure paired,
      paired.map Prod.snd⟩

/-- The number ceil(R / B) for a positive B. -/
def ceilDiv (R B : Nat) : Nat := (R + B - 1) / B

/-- The sizes of the batches that splitFuel cuts off a list of n elements. -/
def batchSizes (B : Nat) : Nat → Nat → List Nat
  | 0, _ => []
  | _, 0 => []
  | fuel + 1, n + 1 => min B (n + 1) :: batchSizes B fuel (n + 1 - B)


/-! ## Concrete inputs used to run the definitions -/

/-- A Gorush stub that answers with the reply numbered by the current state and counts the
call. -/
def countingGorush : GorushClient Nat :=
  ⟨fun _ _ _ n => ((some ⟨n⟩, none), n + 1)⟩

/-- A Health stub that answers with the given status and counts the call. -/
def fixedHealth (s : HealthCheckResponse_ServingStatus) : HealthClient Nat :=
  ⟨fun _ _ _ n => ((some ⟨s⟩, none), n + 1)⟩

/-- A runtime whose dialer always succeeds with the connection numbered by the state. -/
def countingRuntime : Runtime Nat :=
  ⟨fun _ _ n => ((some ⟨n⟩, none), n + 1), fun _ n => (none, n + 1),
    fun _ => countingGorush, fun _ => fixedHealth HealthCheckResponse_SERVING⟩

/-- The zero value `Client{}`: all three fields nil. -/
def zeroClient : Client Nat := ⟨none, none, none⟩

/-- The world before any call. -/
def freshWorld : World Nat := ⟨0, []⟩


/-- The configuration of the scenarios of section 8: three platforms, batches of at most
1000 recipients. -/
def scenarioConfig : NormalizerConfig :=
  ⟨["ios", "android", "webpush"], fun _ => 1000⟩

/-- The recipients of the scenario of section 8: the 2500 tokens t0, t1, ... -/
def scenarioRecipients : List String :=
  (List.range 2500).map (fun i => "t" ++ toString i)

/-- The request of the scenario of section 8: 2500 recipients on android. -/
def scenarioRequest : PushRequest :=
  ⟨"android", scenarioRecipients, ⟨"title", "body", []⟩, none⟩

/-- The outcomes of the scenario of section 8, in completion order: the second task fails for
good, the first and the third succeed. -/
def scenarioOutcomes : List TaskOutcome :=
  [⟨2, .Success, none, 1⟩, ⟨0, .Success, none, 1⟩, ⟨1, .Failed, some "invalid token", 1⟩]

/-- A small version of the scenario of section 8: batches of at most 2 recipients. -/
def smallConfig : NormalizerConfig :=
  ⟨["ios", "android", "webpush"], fun _ => 2⟩

/-- A small version of the scenario of section 8: five recipients on android. -/
def smallRequest : PushRequest :=
  ⟨"android", ["t1", "t2", "t3", "t4", "t5"], ⟨"title", "body", []⟩, none⟩

/-- The three tasks of the small scenario. -/
def smallTasks : List DeliveryTask :=
  [⟨"android", ["t1", "t2"], ⟨"title", "body", []⟩⟩,
    ⟨"android", ["t3", "t4"], ⟨"title", "body", []⟩⟩,
    ⟨"android", ["t5"], ⟨"title", "body", []⟩⟩]

/-! ## Theorems about `client.go` -/

/-- C1: for every Config with an empty Address, whatever Insecure and DialOptions are, New
returns a nil Client and the error whose message is "address is required", and leaves the
world as it found it: the dialer is not called. -/
theorem New_empty_address {σ : Type} (rt : Runtime σ) (cfg : Config) (w : World σ)
    (h : cfg.Address = "") :
    (New rt cfg w).1.1.isNone = true ∧
      (∃ err, (New rt cfg w).1.2 = some err ∧ err.Error = "address is required") ∧
      (New rt cfg w).2 = w ∧ (New rt cfg w).2.trace = w.trace := by
  simp [New, h, GoError.Error]

/-- Witness of C1 on the config with an empty address, plaintext transport and one extra
dial option. -/
theorem New_empty_address_witness :
    (⟨"", true, [DialOption.otherOption 7]⟩ : Config).Address = "" ∧
      ((New countingRuntime ⟨"", true, [DialOption.otherOption 7]⟩ freshWorld).1.1.isNone = true ∧
      (∃ err, (New countingRuntime ⟨"", true, [DialOption.otherOption 7]⟩ freshWorld).1.2 = some err ∧
        err.Error = "address is required") ∧
      (New countingRuntime ⟨"", true, [DialOption.otherOption 7]⟩ freshWorld).2 = freshWorld ∧
      (New countingRuntime ⟨"", true, [DialOption.otherOption 7]⟩ freshWorld).2.trace =
        freshWorld.trace) :=
  ⟨rfl, New_empty_address countingRuntime ⟨"", true, [DialOption.otherOption 7]⟩ freshWorld rfl⟩

/-- C2 as stated fails: on the zero value of Client, which is not nil, Send panics on the nil
Gorush interface: it returns no pair and no call is made. -/
theorem Send_zeroClient_panics :
    (Send (some zeroClient) ⟨0⟩ (some ⟨1⟩) [] freshWorld).1 = Outcome.panicked ∧
      (Send (some zeroClient) ⟨0⟩ (some ⟨1⟩) [] freshWorld).2.trace = [] := by
  exact ⟨rfl, rfl⟩

/-- C2, amended: for every non-nil Client whose Gorush field holds a stub, and every ctx, req
and opts, Send makes exactly one call, to that stub's Send with the same ctx, req and opts,
and returns exactly the pair that call produced. -/
theorem Send_forwards {σ : Type} (cl : Client σ) (stub : GorushClient σ) (ctx : Context)
    (req : Option NotificationRequest) (opts : List CallOption) (w : World σ)
    (h : cl.Gorush = some stub) :
    (Send (some cl) ctx req opts w).1 = Outcome.returned (stub.Send ctx req opts w.ext).1 ∧
      (Send (some cl) ctx req opts w).2.trace = w.trace ++ [Event.GorushSend ctx req opts] ∧
      (Send (some cl) ctx req opts w).2.ext = (stub.Send ctx req opts w.ext).2 := by
  simp [Send, h]

/-- Witness of the amended C2 on a client built around the counting stub. -/
theorem Send_forwards_witness :
    (⟨none, some countingGorush, none⟩ : Client Nat).Gorush = some countingGorush ∧
      (Send (some ⟨none, some countingGorush, none⟩) ⟨0⟩ (some ⟨1⟩) [⟨2⟩] freshWorld).1 =
        Outcome.returned (some ⟨0⟩, none) ∧
      (Send (some ⟨none, some countingGorush, none⟩) ⟨0⟩ (some ⟨1⟩) [⟨2⟩] freshWorld).2.trace =
        [Event.GorushSend ⟨0⟩ (some ⟨1⟩) [⟨2⟩]] ∧
      (Send (some ⟨none, some countingGorush, none⟩) ⟨0⟩ (some ⟨1⟩) [⟨2⟩] freshWorld).2.ext = 1 :=
  ⟨rfl, Send_forwards ⟨none, some countingGorush, none⟩ countingGorush ⟨0⟩ (some ⟨1⟩) [⟨2⟩]
    freshWorld rfl⟩

/-- C3 as stated fails: on the zero value of Client, which is not nil, HealthCheck panics on
the nil Health interface: Check is not called and nothing is returned. -/
theorem HealthCheck_zeroClient_panics :
    (HealthCheck (some zeroClient) ⟨0⟩ "gorush" [] freshWorld).1 = Outcome.panicked ∧
      (HealthCheck (some zeroClient) ⟨0⟩ "gorush" [] freshWorld).2.trace = [] := by
  exact ⟨rfl, rfl⟩

/-- C3, amended: for every non-nil Client whose Health field holds a stub, and every service
name s, HealthCheck calls that stub's Check exactly once, with a HealthCheckRequest whose
Service field is s and the same ctx and opts; when the call returns a response and no error,
HealthCheck returns that response's status and a nil error. -/
theorem HealthCheck_forwards {σ : Type} (cl : Client σ) (stub : HealthClient σ) (ctx : Context)
    (s : String) (opts : List CallOption) (w : World σ) (h : cl.Health = some stub) :
    (HealthCheck (some cl) ctx s opts w).2.trace =
        w.trace ++ [Event.HealthCheck ctx (some ⟨s⟩) opts] ∧
      (HealthCheck (some cl) ctx s opts w).2.ext = (stub.Check ctx (some ⟨s⟩) opts w.ext).2 ∧
      ∀ resp : HealthCheckResponse,
        (stub.Check ctx (some ⟨s⟩) opts w.ext).1 = (some resp, none) →
        (HealthCheck (some cl) ctx s opts w).1 = Outcome.returned (resp.Status, none) := by
  refine ⟨?_, ?_, ?_⟩
  · simp only [HealthCheck, h]
    split <;> rfl
  · simp only [HealthCheck, h]
    split <;> rfl
  · intro resp hr
    simp only [HealthCheck, h]
    split
    · next err he => rw [hr] at he; cases he
    · rw [hr]; rfl

/-- Witness of the amended C3 on a client whose Health stub answers NOT_SERVING. -/
theorem HealthCheck_forwards_witness :
    (⟨none, none, some (fixedHealth HealthCheckResponse_NOT_SERVING)⟩ : Client Nat).Health =
        some (fixedHealth HealthCheckResponse_NOT_SERVING) ∧
      (HealthCheck (some ⟨none, none, some (fixedHealth HealthCheckResponse_NOT_SERVING)⟩) ⟨0⟩
        "gorush" [] freshWorld).1 = Outcome.returned (HealthCheckResponse_NOT_SERVING, none) ∧
      (HealthCheck (some ⟨none, none, some (fixedHealth HealthCheckResponse_NOT_SERVING)⟩) ⟨0⟩
        "gorush" [] freshWorld).2.trace = [Event.HealthCheck ⟨0⟩ (some ⟨"gorush"⟩) []] :=
  ⟨rfl,
    (HealthCheck_forwards ⟨none, none, some (fixedHealth HealthCheckResponse_NOT_SERVING)⟩
      (fixedHealth HealthCheckResponse_NOT_SERVING) ⟨0⟩ "gorush" [] freshWorld rfl).2.2
      ⟨HealthCheckResponse_NOT_SERVING⟩ rfl,
    (HealthCheck_forwards ⟨none, none, some (fixedHealth HealthCheckResponse_NOT_SERVING)⟩
      (fixedHealth HealthCheckResponse_NOT_SERVING) ⟨0⟩ "gorush" [] freshWorld rfl).1⟩

/-- C4 as stated fails: when the Health stub answers with the status numbered 3, HealthCheck
returns that status, which is none of UNKNOWN, SERVING, NOT_SERVING. -/
theorem HealthCheck_unnamed_status :
    (HealthCheck (some ⟨none, none, some (fixedHealth ⟨3⟩)⟩) ⟨0⟩ "gorush" [] freshWorld).1 =
        Outcome.returned (⟨3⟩, none) ∧
      ¬ isNamedStatus ⟨3⟩ := by
  refine ⟨rfl, ?_⟩
  decide

/-- C4, amended: for every Client, nil or not, every service name and every behaviour of the
Health stub, a status that HealthCheck returns is UNKNOWN, or it is the status carried by the
response that the stub's Check returned without error, passed on unchanged; so it is one of
UNKNOWN, SERVING, NOT_SERVING whenever that response carries one of them. -/
theorem HealthCheck_status {σ : Type} (c : Option (Client σ)) (ctx : Context) (s : String)
    (opts : List CallOption) (w : World σ) (st : HealthCheckResponse_ServingStatus)
    (err : Option GoError) (h : (HealthCheck c ctx s opts w).1 = Outcome.returned (st, err)) :
    (st = HealthCheckResponse_UNKNOWN ∨
      ∃ cl stub resp, c = some cl ∧ cl.Health = some stub ∧
        (stub.Check ctx (some ⟨s⟩) opts w.ext).1 = (some resp, none) ∧ st = resp.Status) ∧
    ((∀ cl stub resp, c = some cl → cl.Health = some stub →
        (stub.Check ctx (some ⟨s⟩) opts w.ext).1 = (some resp, none) →
        isNamedStatus resp.Status) → isNamedStatus st) := by
  have key : st = HealthCheckResponse_UNKNOWN ∨
      ∃ cl stub resp, c = some cl ∧ cl.Health = some stub ∧
        (stub.Check ctx (some ⟨s⟩) opts w.ext).1 = (some resp, none) ∧ st = resp.Status := by
    cases c with
    | none =>
      left
      simp only [HealthCheck, Outcome.returned.injEq, Prod.mk.injEq] at h
      exact h.1.symm
    | some cl =>
      cases hH : cl.Health with
      | none => simp [HealthCheck, hH] at h
      | some stub =>
        simp only [HealthCheck, hH] at h
        rcases hc : (stub.Check ctx (some ⟨s⟩) opts w.ext).1 with ⟨resp?, e?⟩
        rw [hc] at h
        cases e? with
        | some e =>
          left
          simp only [Outcome.returned.injEq, Prod.mk.injEq] at h
          exact h.1.symm
        | none =>
          simp only [Outcome.returned.injEq, Prod.mk.injEq] at h
          cases resp? with
          | none => left; exact h.1.symm
          | some resp => right; exact ⟨cl, stub, resp, rfl, hH, hc, h.1.symm⟩
  refine ⟨key, fun hnamed => ?_⟩
  rcases key with hu | ⟨cl, stub, resp, hc, hH, hr, hs⟩
  · exact Or.inl hu
  · rw [hs]
    exact hnamed cl stub resp hc hH hr

/-- Witness of the amended C4 on a client whose Health stub answers SERVING. -/
theorem HealthCheck_status_witness :
    (HealthCheck (some ⟨none, none, some (fixedHealth HealthCheckResponse_SERVING)⟩) ⟨0⟩
        "gorush" [] freshWorld).1 = Outcome.returned (HealthCheckResponse_SERVING, none) ∧
      (HealthCheckResponse_SERVING = HealthCheckResponse_UNKNOWN ∨
        ∃ cl stub resp,
          some (⟨none, none, some (fixedHealth HealthCheckResponse_SERVING)⟩ : Client Nat) =
            some cl ∧ cl.Health = some stub ∧
          (stub.Check ⟨0⟩ (some ⟨"gorush"⟩) [] freshWorld.ext).1 = (some resp, none) ∧
          HealthCheckResponse_SERVING = resp.Status) :=
  ⟨rfl, (HealthCheck_status (some ⟨none, none, some (fixedHealth HealthCheckResponse_SERVING)⟩)
    ⟨0⟩ "gorush" [] freshWorld HealthCheckResponse_SERVING none rfl).1⟩

/-- C5: for every Config with a non-empty Address, New calls the dialer exactly once, with
cfg.Address unchanged and with these options: when Insecure is true, the insecure
transport-credentials option followed by cfg.DialOptions in their order, 1 + len(DialOptions)
options in all; when Insecure is false, exactly cfg.DialOptions. -/
theorem New_dial_options {σ : Type} (rt : Runtime σ) (cfg : Config) (w : World σ)
    (h : cfg.Address ≠ "") :
    (cfg.Insecure = true →
      (New rt cfg w).2.trace = w.trace ++ [Event.NewClient cfg.Address
        (DialOption.WithTransportCredentials TransportCredentials.insecureCreds ::
          cfg.DialOptions)] ∧
      (DialOption.WithTransportCredentials TransportCredentials.insecureCreds ::
          cfg.DialOptions).length = 1 + cfg.DialOptions.length ∧
      (New rt cfg w).2.ext = (rt.NewClient cfg.Address
        (DialOption.WithTransportCredentials TransportCredentials.insecureCreds ::
          cfg.DialOptions) w.ext).2) ∧
    (cfg.Insecure = false →
      (New rt cfg w).2.trace = w.trace ++ [Event.NewClient cfg.Address cfg.DialOptions] ∧
      (New rt cfg w).2.ext = (rt.NewClient cfg.Address cfg.DialOptions w.ext).2) := by
  constructor
  · intro hi
    have hd : dialOpts cfg = DialOption.WithTransportCredentials
        TransportCredentials.insecureCreds :: cfg.DialOptions := by
      simp [dialOpts, hi]
    simp only [New, if_neg h, hd]
    refine ⟨?_, by simp [Nat.add_comm], ?_⟩ <;> (split <;> rfl)
  · intro hi
    have hd : dialOpts cfg = cfg.DialOptions := by
      simp [dialOpts, hi]
    simp only [New, if_neg h, hd]
    refine ⟨?_, ?_⟩ <;> (split <;> rfl)

/-- Witness of C5 on a plaintext config with two extra dial options. -/
theorem New_dial_options_witness :
    (⟨"localhost:9000", true, [DialOption.otherOption 1, DialOption.otherOption 2]⟩ :
        Config).Address ≠ "" ∧
      (New countingRuntime
        ⟨"localhost:9000", true, [DialOption.otherOption 1, DialOption.otherOption 2]⟩
        freshWorld).2.trace =
        freshWorld.trace ++ [Event.NewClient "localhost:9000"
          [DialOption.WithTransportCredentials TransportCredentials.insecureCreds,
            DialOption.otherOption 1, DialOption.otherOption 2]] :=
  ⟨by decide,
    ((New_dial_options countingRuntime
      ⟨"localhost:9000", true, [DialOption.otherOption 1, DialOption.otherOption 2]⟩
      freshWorld (by decide)).1 rfl).1⟩

/-! ## Theorems about the dispatch core -/

theorem ceilDiv_step (n B : Nat) (hB : 0 < B) (hn : 0 < n) :
    ceilDiv n B = ceilDiv (n - B) B + 1 := by
  unfold ceilDiv
  by_cases h : B ≤ n
  · have : n + B - 1 = (n - B + B - 1) + B := by omega
    rw [this, Nat.add_div_right _ hB]
  · have h1 : n - B = 0 := by omega
    rw [h1]
    have h2 : (0 + B - 1) / B = 0 := Nat.div_eq_of_lt (by omega)
    have h3 : (n + B - 1) / B = 1 := by
      apply Nat.div_eq_of_lt_le <;> omega
    rw [h2, h3]

theorem le_ceilDiv_mul (R B : Nat) (hB : 0 < B) : R ≤ ceilDiv R B * B := by
  unfold ceilDiv
  have h1 := Nat.div_add_mod (R + B - 1) B
  have h2 := Nat.mod_lt (R + B - 1) hB
  rw [Nat.mul_comm] at h1
  omega

theorem ceilDiv_le_of_le_mul (R B n : Nat) (hB : 0 < B) (h : R ≤ n * B) : ceilDiv R B ≤ n := by
  unfold ceilDiv
  apply Nat.le_of_lt_succ
  rw [Nat.div_lt_iff_lt_mul hB, Nat.succ_mul]
  omega

theorem ceilDiv_eq_ceil (R B : Nat) (hB : 0 < B) : ceilDiv R B = ⌈(R : ℚ) / (B : ℚ)⌉₊ := by
  have hBq : (0 : ℚ) < B := by exact_mod_cast hB
  apply le_antisymm
  · apply ceilDiv_le_of_le_mul R B _ hB
    have h := Nat.le_ceil ((R : ℚ) / (B : ℚ))
    rw [div_le_iff₀ hBq] at h
    exact_mod_cast h
  · rw [Nat.ceil_le, div_le_iff₀ hBq]
    exact_mod_cast le_ceilDiv_mul R B hB

theorem splitFuel_flatten {α : Type} (B : Nat) (hB : 0 < B) :
    ∀ (fuel : Nat) (xs : List α), xs.length ≤ fuel → (splitFuel B fuel xs).flatten = xs := by
  intro fuel
  induction fuel with
  | zero =>
    intro xs h
    have : xs = [] := List.length_eq_zero.mp (by omega)
    subst this
    rfl
  | succ fuel ih =>
    intro xs h
    cases xs with
    | nil => simp [splitFuel]
    | cons x xs =>
      have hd : ((x :: xs).drop B).length ≤ fuel := by
        rw [List.length_drop]; simp only [List.length_cons] at h ⊢; omega
      simp only [splitFuel, List.flatten_cons, ih _ hd, List.take_append_drop]

theorem splitFuel_batch_le {α : Type} (B : Nat) :
    ∀ (fuel : Nat) (xs : List α) (b : List α), b ∈ splitFuel B fuel xs → b.length ≤ B := by
  intro fuel
  induction fuel with
  | zero => intro xs b h; simp [splitFuel] at h
  | succ fuel ih =>
    intro xs b h
    cases xs with
    | nil => simp [splitFuel] at h
    | cons x xs =>
      simp only [splitFuel, List.mem_cons] at h
      rcases h with h | h
      · rw [h, List.length_take]; exact Nat.min_le_left _ _
      · exact ih _ b h

theorem splitFuel_length {α : Type} (B : Nat) (hB : 0 < B) :
    ∀ (fuel : Nat) (xs : List α), xs.length ≤ fuel →
      (splitFuel B fuel xs).length = ceilDiv xs.length B := by
  intro fuel
  induction fuel with
  | zero =>
    intro xs h
    have : xs = [] := List.length_eq_zero.mp (by omega)
    subst this
    simp only [splitFuel, List.length_nil, ceilDiv]
    exact (Nat.div_eq_of_lt (by omega)).symm
  | succ fuel ih =>
    intro xs h
    cases xs with
    | nil =>
      simp only [splitFuel, List.length_nil, ceilDiv]
      exact (Nat.div_eq_of_lt (by omega)).symm
    | cons x xs =>
      have hd : ((x :: xs).drop B).length ≤ fuel := by
        rw [List.length_drop]; simp only [List.length_cons] at h ⊢; omega
      simp only [splitFuel, List.length_cons, ih _ hd]
      rw [List.length_drop, List.length_cons]
      exact (ceilDiv_step _ B hB (by omega)).symm

theorem splitBatches_flatten {α : Type} (B : Nat) (hB : 0 < B) (xs : List α) :
    (splitBatches B xs).flatten = xs :=
  splitFuel_flatten B hB xs.length xs (Nat.le_refl _)

theorem splitFuel_sizes {α : Type} (B : Nat) :
    ∀ (fuel : Nat) (xs : List α),
      (splitFuel B fuel xs).map List.length = batchSizes B fuel xs.length := by
  intro fuel
  induction fuel with
  | zero => intro xs; cases xs <;> rfl
  | succ fuel ih =>
    intro xs
    cases xs with
    | nil => rfl
    | cons x xs =>
      simp only [splitFuel, List.map_cons, ih, List.length_take, List.length_drop,
        List.length_cons, batchSizes]

theorem normalize_sizes (cfg : NormalizerConfig) (req : PushRequest) (hv : req.valid cfg) :
    (normalize cfg req).toOption.map (fun tasks => tasks.map (fun t => t.recipients.length)) =
      some (batchSizes (cfg.maxBatchSize req.platform) req.recipients.length
        req.recipients.length) := by
  obtain ⟨hp, hr⟩ := hv
  simp only [normalize, if_pos hp, if_neg hr, Except.toOption, Option.map_some', List.map_map,
    splitBatches]
  rw [← splitFuel_sizes]
  rfl

theorem scenarioRequest_length : scenarioRequest.recipients.length = 2500 := by
  unfold scenarioRequest scenarioRecipients
  simp only [List.length_map, List.length_range]

theorem scenarioRequest_valid : scenarioRequest.valid scenarioConfig := by
  refine ⟨by decide, ?_⟩
  intro h
  have hl := congrArg List.length h
  rw [scenarioRequest_length] at hl
  exact absurd hl (by decide)

/-- C6: for every valid PushRequest with R recipients and every positive batch size B, the
Normalizer succeeds and produces ceil(R/B) tasks, each holding at most B recipients, and the
recipients of the tasks, concatenated in task order, are the original recipient list. -/
theorem normalize_batches (cfg : NormalizerConfig) (req : PushRequest) (hv : req.valid cfg)
    (hB : 0 < cfg.maxBatchSize req.platform) :
    ∃ tasks, normalize cfg req = .ok tasks ∧
      tasks.length = ⌈(req.recipients.length : ℚ) / (cfg.maxBatchSize req.platform : ℚ)⌉₊ ∧
      (∀ t ∈ tasks, t.recipients.length ≤ cfg.maxBatchSize req.platform) ∧
      (tasks.map DeliveryTask.recipients).flatten = req.recipients := by
  obtain ⟨hp, hr⟩ := hv
  refine ⟨(splitBatches (cfg.maxBatchSize req.platform) req.recipients).map
    (fun batch => ⟨req.platform, batch, req.payload⟩), ?_, ?_, ?_, ?_⟩
  · simp only [normalize, if_pos hp, if_neg hr]
  · rw [List.length_map, ← ceilDiv_eq_ceil _ _ hB]
    exact splitFuel_length _ hB _ _ (Nat.le_refl _)
  · intro t ht
    rw [List.mem_map] at ht
    obtain ⟨b, hb, rfl⟩ := ht
    exact splitFuel_batch_le _ _ _ b hb
  · rw [List.map_map]
    have : (DeliveryTask.recipients ∘ fun batch : List String =>
        (⟨req.platform, batch, req.payload⟩ : DeliveryTask)) = id := rfl
    rw [this, List.map_id]
    exact splitBatches_flatten _ hB _

/-- Witness of C6 on the scenario of section 8: 2500 recipients and batches of at most 1000
give three tasks of 1000, 1000 and 500 recipients. -/
theorem normalize_batches_witness :
    scenarioRequest.valid scenarioConfig ∧
      0 < scenarioConfig.maxBatchSize scenarioRequest.platform ∧
      (∃ tasks, normalize scenarioConfig scenarioRequest = .ok tasks ∧
        tasks.length = ⌈(scenarioRequest.recipients.length : ℚ) /
          (scenarioConfig.maxBatchSize scenarioRequest.platform : ℚ)⌉₊ ∧
        (∀ t ∈ tasks, t.recipients.length ≤ scenarioConfig.maxBatchSize scenarioRequest.platform) ∧
        (tasks.map DeliveryTask.recipients).flatten = scenarioRequest.recipients) ∧
      (normalize scenarioConfig scenarioRequest).toOption.map
        (fun tasks => tasks.map (fun t => t.recipients.length)) = some [1000, 1000, 500] :=
  ⟨scenarioRequest_valid, by decide,
    normalize_batches scenarioConfig scenarioRequest scenarioRequest_valid (by decide),
    by rw [normalize_sizes _ _ scenarioRequest_valid, scenarioRequest_length]; decide⟩
theorem normalize_ok (cfg : NormalizerConfig) (req : PushRequest) (tasks : List DeliveryTask)
    (h : normalize cfg req = .ok tasks) :
    tasks = (splitBatches (cfg.maxBatchSize req.platform) req.recipients).map
      (fun batch => ⟨req.platform, batch, req.payload⟩) := by
  unfold normalize at h
  split at h
  · split at h
    · cases h
    · cases h; rfl
  · cases h

theorem reorder_fst (outcomes : List TaskOutcome) :
    ∀ (tasks : List DeliveryTask) (i : Nat) (paired : List (DeliveryTask × TaskOutcome)),
      reorder outcomes i tasks = some paired → paired.map Prod.fst = tasks := by
  intro tasks
  induction tasks with
  | nil =>
    intro i paired h
    simp only [reorder, Option.some.injEq] at h
    subst h
    rfl
  | cons t ts ih =>
    intro i paired h
    simp only [reorder] at h
    split at h
    · next o rest ho hrest =>
      simp only [Option.some.injEq] at h
      subst h
      simp only [List.map_cons, ih _ _ hrest]
    · cases h

theorem recipientTotal_add :
    ∀ paired : List (DeliveryTask × TaskOutcome),
      recipientTotal TaskStatus.isSuccess paired + recipientTotal TaskStatus.isFailure paired =
        ((paired.map Prod.fst).map (fun t => t.recipients.length)).sum := by
  intro paired
  induction paired with
  | nil => rfl
  | cons p rest ih =>
    obtain ⟨t, o⟩ := p
    simp only [recipientTotal, List.map_cons, List.sum_cons, ← ih]
    cases o.status <;> simp [TaskStatus.isSuccess, TaskStatus.isFailure] <;> omega

theorem sum_length_eq_length_flatten {α : Type} :
    ∀ bs : List (List α), (bs.map List.length).sum = bs.flatten.length := by
  intro bs
  induction bs with
  | nil => rfl
  | cons b bs ih => simp only [List.map_cons, List.sum_cons, List.flatten_cons, List.length_append, ih]

theorem reorder_tasks_in_order (outcomes : List TaskOutcome) :
    ∀ (tasks : List DeliveryTask) (i : Nat) (paired : List (DeliveryTask × TaskOutcome)),
      reorder outcomes i tasks = some paired →
        paired.map (fun p => p.2.task) = List.range' i tasks.length ∧
          ∀ p ∈ paired, p.2 ∈ outcomes := by
  intro tasks
  induction tasks with
  | nil =>
    intro i paired h
    simp only [reorder, Option.some.injEq] at h
    subst h
    simp
  | cons t ts ih =>
    intro i paired h
    simp only [reorder] at h
    split at h
    · next o rest ho hrest =>
      simp only [Option.some.injEq] at h
      subst h
      obtain ⟨h1, h2⟩ := ih _ _ hrest
      have hoi : o.task = i := by
        have := List.find?_some ho
        simpa using this
      refine ⟨by simp [h1, hoi, List.range'], ?_⟩
      intro p hp
      rcases List.mem_cons.mp hp with rfl | hp
      · exact List.mem_of_find?_eq_some ho
      · exact h2 p hp
    · cases h

/-- The outcomes of a reply are outcomes the scheduler delivered, one per task, in task
creation order. -/
theorem aggregate_outcomes_in_order (outcomes : List TaskOutcome) (tasks : List DeliveryTask)
    (reply : DispatchReply) (ha : aggregate outcomes tasks = .ok reply) :
    reply.outcomes.map TaskOutcome.task = List.range tasks.length ∧
      ∀ o ∈ reply.outcomes, o ∈ outcomes := by
  unfold aggregate at ha
  split at ha
  · cases ha
  · next paired hp =>
    cases ha
    obtain ⟨h1, h2⟩ := reorder_tasks_in_order outcomes tasks 0 paired hp
    refine ⟨?_, ?_⟩
    · show (paired.map Prod.snd).map TaskOutcome.task = List.range tasks.length
      rw [List.map_map, List.range_eq_range']
      exact h1
    · intro o ho
      obtain ⟨p, hp1, rfl⟩ := List.mem_map.mp ho
      exact h2 p hp1

/-- C7: for every DispatchReply that the Aggregator builds for the tasks of a PushRequest
with R recipients (batch size positive), success count + failure count = R, the counts being
sums of the recipients of the succeeded and of the failed tasks. -/
theorem aggregate_conservation (cfg : NormalizerConfig) (req : PushRequest)
    (tasks : List DeliveryTask) (outcomes : List TaskOutcome) (reply : DispatchReply)
    (hB : 0 < cfg.maxBatchSize req.platform) (hn : normalize cfg req = .ok tasks)
    (ha : aggregate outcomes tasks = .ok reply) :
    reply.successCount + reply.failureCount = req.recipients.length := by
  unfold aggregate at ha
  split at ha
  · cases ha
  · next paired hp =>
    cases ha
    show recipientTotal TaskStatus.isSuccess paired + recipientTotal TaskStatus.isFailure paired
      = req.recipients.length
    rw [recipientTotal_add, reorder_fst _ _ _ _ hp, normalize_ok _ _ _ hn, List.map_map]
    have hf : ((fun t : DeliveryTask => t.recipients.length) ∘ fun batch : List String =>
        (⟨req.platform, batch, req.payload⟩ : DeliveryTask)) = List.length := rfl
    rw [hf, sum_length_eq_length_flatten, splitBatches_flatten _ hB]

/-- Witness of C7 on the small scenario: the second task fails, the first and the third
succeed, so 3 recipients succeed and 2 fail, 5 in all. -/
theorem aggregate_conservation_witness :
    0 < smallConfig.maxBatchSize smallRequest.platform ∧
      normalize smallConfig smallRequest = .ok smallTasks ∧
      aggregate scenarioOutcomes smallTasks =
        .ok ⟨3, 2, [⟨0, .Success, none, 1⟩, ⟨1, .Failed, some "invalid token", 1⟩,
          ⟨2, .Success, none, 1⟩]⟩ ∧
      3 + 2 = smallRequest.recipients.length :=
  ⟨by decide, rfl, rfl,
    aggregate_conservation smallConfig smallRequest smallTasks scenarioOutcomes
      ⟨3, 2, [⟨0, .Success, none, 1⟩, ⟨1, .Failed, some "invalid token", 1⟩,
        ⟨2, .Success, none, 1⟩]⟩ (by decide) rfl rfl⟩


end PlatRush
